import Mathlib

/-!
Verification of the rivik_assets asset loader/cache against its design
specification.  The Rust sources are shallowly embedded: pure functions
become Lean functions, the stateful two-tier cache becomes an explicit
state-passing step function, machine integers become `Nat` with explicit
`% 2 ^ w` where wrap-around matters, and fallible code returns `Except`.
External collaborators (the `uriparse` crate, the std hasher, the chunked
container reader, the per-format parse implementations) are modelled by
explicit Lean definitions or parameters, as documented at each site.
-/

namespace Rivik

/-! ### Error model (the reerror crate as used by rivik_assets) -/

/-- Status codes of the reerror crate that rivik_assets uses. -/
inductive StatusCode where
  | invalidArgument
  | notFound
  | unimplemented
  | outOfRange
  | ioError
  | unknown
deriving DecidableEq, Repr

/-- An error value: a status code plus a human readable message. -/
structure AssetError where
  code : StatusCode
  msg : String
deriving DecidableEq, Repr

/-! ### URI references (model of the external uriparse crate, src/src/path.rs)

`Path::try_from` delegates URI parsing to `uriparse::URIReference::try_from`,
an external crate implementing RFC 3986 URI references.  The model below
parses a URI reference into its components (scheme, authority, path, query,
fragment) with RFC 3986 character validation (percent-encoded triplets
allowed; IPv6 literal hosts are not modelled). -/

/-- Hexadecimal digit value of a character, if any. -/
def hexVal? (c : Char) : Option Nat :=
  if c.isDigit then some (c.toNat - 48)
  else if 97 ≤ c.toNat ∧ c.toNat ≤ 102 then some (c.toNat - 87)
  else if 65 ≤ c.toNat ∧ c.toNat ≤ 70 then some (c.toNat - 55)
  else none

/-- Characters allowed in a URI scheme after the leading letter. -/
def isSchemeChar (c : Char) : Bool :=
  c.isAlpha || c.isDigit || c == '+' || c == '-' || c == '.'

/-- RFC 3986 unreserved characters. -/
def isUnreservedChar (c : Char) : Bool :=
  c.isAlpha || c.isDigit || c == '-' || c == '.' || c == '_' || c == '~'

/-- RFC 3986 sub-delims (character 39 is the apostrophe). -/
def isSubDelimChar (c : Char) : Bool :=
  c == '!' || c == '$' || c == '&' || c.toNat == 39 || c == '(' || c == ')'
    || c == '*' || c == '+' || c == ',' || c == ';' || c == '='

/-- RFC 3986 pchar (minus pct-encoded, which the scanner handles). -/
def isPChar (c : Char) : Bool :=
  isUnreservedChar c || isSubDelimChar c || c == ':' || c == '@'

/-- Characters allowed in a URI path. -/
def isPathChar (c : Char) : Bool := isPChar c || c == '/'

/-- Characters allowed in a query or fragment. -/
def isQueryFragChar (c : Char) : Bool := isPChar c || c == '/' || c == '?'

/-- Characters allowed in an authority component (userinfo, reg-name, port). -/
def isAuthorityChar (c : Char) : Bool :=
  isUnreservedChar c || isSubDelimChar c || c == ':' || c == '@'

/-- Validates a character sequence in which percent-encoded triplets are
allowed and every other character must satisfy `ok`. -/
def validSeq (ok : Char → Bool) : List Char → Bool
  | [] => true
  | '%' :: a :: b :: rest =>
      (hexVal? a).isSome && (hexVal? b).isSome && validSeq ok rest
  | '%' :: _ => false
  | c :: rest => ok c && validSeq ok rest

/-- Splits a character list at the first occurrence of `c`; the second
component is `none` when `c` does not occur. -/
def splitAtFirst (c : Char) : List Char → List Char × Option (List Char)
  | [] => ([], none)
  | x :: rest =>
      if x = c then ([], some rest)
      else
        let r := splitAtFirst c rest
        (x :: r.1, r.2)

/-- Longest prefix not containing `c`, together with the remainder. -/
def spanNot (c : Char) : List Char → List Char × List Char
  | [] => ([], [])
  | x :: rest =>
      if x = c then ([], x :: rest)
      else
        let r := spanNot c rest
        (x :: r.1, r.2)

/-- Longest prefix of scheme characters, together with the remainder. -/
def takeSchemeChars : List Char → List Char × List Char
  | [] => ([], [])
  | x :: rest =>
      if isSchemeChar x then
        let r := takeSchemeChars rest
        (x :: r.1, r.2)
      else ([], x :: rest)

/-- Components of a parsed RFC 3986 URI reference. -/
structure URIRef where
  scheme : Option String
  authority : Option String
  path : String
  query : Option String
  fragment : Option String
deriving DecidableEq, Repr

/-- Parses the hier-part (or relative-part) of a URI reference: an optional
`//authority` followed by the path.  When no scheme is present the first
path segment of a relative reference must not contain a colon. -/
def parseAfterScheme (hasScheme : Bool) (cs : List Char) :
    Option (Option String × String) :=
  match cs with
  | '/' :: '/' :: r =>
      let ap := spanNot '/' r
      if validSeq isAuthorityChar ap.1 && validSeq isPathChar ap.2 then
        some (some (String.mk ap.1), String.mk ap.2)
      else none
  | _ =>
      if validSeq isPathChar cs
          && (hasScheme || !(spanNot '/' cs).1.contains ':') then
        some (none, String.mk cs)
      else none

/-- Parses a string as an RFC 3986 URI reference (model of
`uriparse::URIReference::try_from`).  Returns `none` on malformed input. -/
def uriParse (s : String) : Option URIRef :=
  let cs := s.data
  let bfr := splitAtFirst '#' cs
  let bqr := splitAtFirst '?' bfr.1
  let fragOk := match bfr.2 with
    | none => true
    | some f => validSeq isQueryFragChar f
  let queryOk := match bqr.2 with
    | none => true
    | some q => validSeq isQueryFragChar q
  if fragOk && queryOk then
    let sr := takeSchemeChars bqr.1
    match sr.1, sr.2 with
    | c :: scs, ':' :: r =>
        if c.isAlpha then
          (parseAfterScheme true r).map fun ap =>
            ⟨some (String.mk (c :: scs)), ap.1, ap.2,
              bqr.2.map String.mk, bfr.2.map String.mk⟩
        else none
    | [], ':' :: _ => none
    | _, _ =>
        (parseAfterScheme false bqr.1).map fun ap =>
          ⟨none, ap.1, ap.2, bqr.2.map String.mk, bfr.2.map String.mk⟩
  else none

/-! ### The Path type (src/src/path.rs) -/

/-- Path used to identify an asset (src/src/path.rs).  `File` holds a
filesystem path; `Chunk` holds a chunked-container path plus an optional
128-bit chunk identifier (represented as a `Nat` below `2 ^ 128`). -/
inductive Path where
  | File : String → Path
  | Chunk : String → Option Nat → Path
deriving DecidableEq, Repr

/-- Model of `u128::from_str_radix(s, 16)`: an optional leading plus sign,
then at least one hexadecimal digit; overflow past `2 ^ 128` is an error. -/
def fromStrRadix16? (s : String) : Option Nat :=
  let ds := match s.data with
    | '+' :: r => r
    | r => r
  if ds.isEmpty then none
  else
    match ds.foldl
        (fun acc c =>
          match acc, hexVal? c with
          | some a, some d => some (a * 16 + d)
          | _, _ => none)
        (some 0) with
    | some v => if v < 2 ^ 128 then some v else none
    | none => none

/-- ASCII lower-casing, as `uriparse::Scheme::normalize` performs it. -/
def lowerAscii (s : String) : String := String.mk (s.data.map Char.toLower)

/-- Model of `Path::try_from(&str)` (src/src/path.rs lines 32-55): parse the
string as a URI reference, default the scheme to `file`, normalize it to
lower case, then dispatch on the scheme. -/
def Path.tryFrom (s : String) : Except AssetError Path :=
  match uriParse s with
  | none => .error ⟨.invalidArgument, "invalid URI reference"⟩
  | some uri =>
      let scheme := lowerAscii (uri.scheme.getD "file")
      if scheme = "file" then .ok (.File uri.path)
      else if scheme = "bin" then
        match uri.fragment with
        | none => .ok (.Chunk uri.path none)
        | some frag =>
            match fromStrRadix16? frag with
            | some id => .ok (.Chunk uri.path (some id))
            | none => .error ⟨.invalidArgument, "invalid chunk id fragment"⟩
      else .error ⟨.unimplemented, "Unsupported URI scheme " ++ scheme⟩

/-- Uppercase hexadecimal rendering of a natural number, as Rust
`format!("{:X}", n)` produces (no leading zeros, `0` renders as `"0"`). -/
def hexUpper (n : Nat) : String :=
  String.mk ((Nat.toDigits 16 n).map Char.toUpper)

/-- Model of `PathBuf::is_absolute` on Unix: the path starts with a slash. -/
def isAbsolute (p : String) : Bool := p.startsWith "/"

/-- Model of `Display for Path` (src/src/path.rs lines 73-90). -/
def Path.display : Path → String
  | .File p => (if isAbsolute p then "file://" else "file:") ++ p
  | .Chunk p (some id) =>
      (if isAbsolute p then "bin://" else "bin:") ++ p ++ "#" ++ hexUpper id
  | .Chunk p none => (if isAbsolute p then "bin://" else "bin:") ++ p

/-! ### Byte sources (Path::reader, src/src/path.rs lines 95-114)

The chunked container reader (`crate::bin`, declared in lib.rs) is not under
src/.  Modelled from the spec: a container exposes "iterate chunks yielding
id + byte extent" and "read extent"; the filesystem is a map from paths to
plain byte contents and to container chunk lists. -/

/-- Modelled from the spec: a chunk of a chunked container file, an
identifier plus the bytes of its extent (`crate::bin` is not under src/). -/
structure Chunk where
  id : Nat
  bytes : List Nat
deriving DecidableEq, Repr

/-- Modelled from the spec: the filesystem visible to `Path::reader`.
`raw` gives the bytes of a plain file, `containers` gives the chunk list
yielded by the external chunked-container iterator (`crate::bin`). -/
structure FileSys where
  raw : String → Option (List Nat)
  containers : String → Option (List Chunk)

/-- Sequential scan of the container's chunks, as the
`while let Ok(chunk) = file.chunk()` loop performs it: the first chunk whose
identifier equals `id` wins. -/
def findChunk (id : Nat) : List Chunk → Option Chunk
  | [] => none
  | c :: rest => if c.id = id then some c else findChunk id rest

/-- Model of `Path::reader` (src/src/path.rs lines 95-114): open a byte
source for the located resource. -/
def Path.reader (fs : FileSys) : Path → Except AssetError (List Nat)
  | .File p =>
      match fs.raw p with
      | some bytes => .ok bytes
      | none => .error ⟨.ioError, "failed to open file"⟩
  | .Chunk p (some id) =>
      match fs.containers p with
      | none => .error ⟨.ioError, "failed to open file"⟩
      | some chunks =>
          match findChunk id chunks with
          | some c => .ok c.bytes
          | none => .error ⟨.notFound, "Chunk not found: " ++ hexUpper id⟩
  | .Chunk p none =>
      .error ⟨.unimplemented,
        "Unsupported path type: " ++ Path.display (.Chunk p none)⟩

/-! ### Locator theorems -/

/-- C4: parsing a locator string parses it as a URI reference (malformed
text fails with InvalidArgument), defaults to the `file` scheme when none is
present and normalizes the scheme case-insensitively; scheme `file` yields
`File` of the URI path; scheme `bin` yields `Chunk` of the URI path with the
optional fragment parsed as a base-16 128-bit integer (a malformed fragment
fails with InvalidArgument); any other scheme fails with Unimplemented
naming that scheme. -/
theorem c4_locator_parse (t : String) :
    (uriParse t = none →
      ∃ m, Path.tryFrom t = .error ⟨.invalidArgument, m⟩) ∧
    (∀ u, uriParse t = some u →
      (lowerAscii (u.scheme.getD "file") = "file" →
        Path.tryFrom t = .ok (.File u.path)) ∧
      (lowerAscii (u.scheme.getD "file") = "bin" →
        (u.fragment = none → Path.tryFrom t = .ok (.Chunk u.path none)) ∧
        (∀ frag, u.fragment = some frag →
          (∀ id, fromStrRadix16? frag = some id →
            Path.tryFrom t = .ok (.Chunk u.path (some id))) ∧
          (fromStrRadix16? frag = none →
            ∃ m, Path.tryFrom t = .error ⟨.invalidArgument, m⟩))) ∧
      (lowerAscii (u.scheme.getD "file") ≠ "file" →
        lowerAscii (u.scheme.getD "file") ≠ "bin" →
        Path.tryFrom t = .error ⟨.unimplemented,
          "Unsupported URI scheme " ++ lowerAscii (u.scheme.getD "file")⟩)) := by
  constructor
  · intro h
    exact ⟨"invalid URI reference", by simp [Path.tryFrom, h]⟩
  · intro u hu
    refine ⟨fun hs => ?_, fun hs => ⟨fun hf => ?_, fun frag hf => ⟨fun id hid => ?_, fun hid => ?_⟩⟩,
      fun hs1 hs2 => ?_⟩
    · simp [Path.tryFrom, hu, hs]
    · have hnf : lowerAscii (u.scheme.getD "file") ≠ "file" := by simp [hs]
      simp [Path.tryFrom, hu, hs, hf, hnf]
    · have hnf : lowerAscii (u.scheme.getD "file") ≠ "file" := by simp [hs]
      simp [Path.tryFrom, hu, hs, hf, hid, hnf]
    · have hnf : lowerAscii (u.scheme.getD "file") ≠ "file" := by simp [hs]
      exact ⟨"invalid chunk id fragment",
        by simp [Path.tryFrom, hu, hs, hf, hid, hnf]⟩
    · simp [Path.tryFrom, hu, hs1, hs2]

/-- Witness for C4 at concrete inputs: a malformed chunk-id fragment fails
with InvalidArgument, and an unsupported scheme fails with Unimplemented
naming the scheme. -/
theorem c4_locator_parse_witness :
    (∃ m, Path.tryFrom "bin:foo#ZZ" = .error ⟨.invalidArgument, m⟩) ∧
    Path.tryFrom "http://x.com/y" =
      .error ⟨.unimplemented, "Unsupported URI scheme http"⟩ := by
  constructor
  · exact (((c4_locator_parse "bin:foo#ZZ").2
      ⟨some "bin", none, "foo", none, some "ZZ"⟩ rfl).2.1 rfl).2 "ZZ" rfl |>.2 rfl
  · exact ((c4_locator_parse "http://x.com/y").2
      ⟨some "http", some "x.com", "/y", none, none⟩ rfl).2.2 (by decide) (by decide)

/-- Modelled from the spec: the canonical re-serialization of a locator
text, built from its parsed URI components — the scheme normalized to lower
case, `scheme:path` for a relative path, `scheme://path` for an absolute
path, and a `#HEXID` suffix in uppercase hex exactly when a chunk id is
present. -/
def specCanonical (t : String) : Option String :=
  match uriParse t with
  | none => none
  | some uri =>
      let scheme := lowerAscii (uri.scheme.getD "file")
      let sep := if isAbsolute uri.path then "://" else ":"
      if scheme = "file" then some ("file" ++ sep ++ uri.path)
      else if scheme = "bin" then
        match uri.fragment with
        | none => some ("bin" ++ sep ++ uri.path)
        | some frag =>
            (fromStrRadix16? frag).map fun id =>
              "bin" ++ sep ++ uri.path ++ "#" ++ hexUpper id
      else none

/-- C5: for every locator text that parses successfully, displaying the
parsed locator gives exactly the canonical re-serialization of the text. -/
theorem c5_display_roundtrip (t : String) (l : Path)
    (h : Path.tryFrom t = .ok l) :
    specCanonical t = some (Path.display l) := by
  cases hu : uriParse t with
  | none =>
      simp only [Path.tryFrom, hu] at h
      exact Except.noConfusion h
  | some u =>
      simp only [Path.tryFrom, hu] at h
      simp only [specCanonical, hu]
      by_cases hs : lowerAscii (u.scheme.getD "file") = "file"
      · rw [if_pos hs] at h
        rw [if_pos hs]
        simp only [Except.ok.injEq] at h
        subst h
        simp only [Path.display]
        by_cases habs : isAbsolute u.path
        · rw [if_pos habs, if_pos habs,
            show ("file" ++ "://" : String) = "file://" from rfl]
        · rw [if_neg habs, if_neg habs,
            show ("file" ++ ":" : String) = "file:" from rfl]
      · rw [if_neg hs] at h
        rw [if_neg hs]
        by_cases hb : lowerAscii (u.scheme.getD "file") = "bin"
        · rw [if_pos hb] at h
          rw [if_pos hb]
          cases hf : u.fragment with
          | none =>
              simp only [hf] at h
              simp only [hf]
              simp only [Except.ok.injEq] at h
              subst h
              simp only [Path.display]
              by_cases habs : isAbsolute u.path
              · rw [if_pos habs, if_pos habs,
                    show ("bin" ++ "://" : String) = "bin://" from rfl]
              · rw [if_neg habs, if_neg habs,
                    show ("bin" ++ ":" : String) = "bin:" from rfl]
          | some frag =>
              simp only [hf] at h
              simp only [hf]
              cases hr : fromStrRadix16? frag with
              | none =>
                  simp only [hr] at h
                  exact Except.noConfusion h
              | some id =>
                  simp only [hr] at h
                  simp only [hr, Option.map]
                  simp only [Except.ok.injEq] at h
                  subst h
                  simp only [Path.display]
                  by_cases habs : isAbsolute u.path
                  · rw [if_pos habs, if_pos habs,
                    show ("bin" ++ "://" : String) = "bin://" from rfl]
                  · rw [if_neg habs, if_neg habs,
                    show ("bin" ++ ":" : String) = "bin:" from rfl]
        · rw [if_neg hb] at h
          exact Except.noConfusion h

/-- Witness for C5: a lowercase, zero-padded chunk fragment re-serializes
canonically with an uppercase, unpadded hex id. -/
theorem c5_display_roundtrip_witness :
    specCanonical "bin:c.bin#0deadbeef" =
      some (Path.display (.Chunk "c.bin" (some 0xDEADBEEF))) :=
  c5_display_roundtrip "bin:c.bin#0deadbeef" (.Chunk "c.bin" (some 0xDEADBEEF))
    (by rfl)

/-- The sequential chunk scan returns the first chunk with the wanted id. -/
theorem findChunk_eq_find? (id : Nat) (l : List Chunk) :
    findChunk id l = l.find? (fun c => c.id == id) := by
  induction l with
  | nil => rfl
  | cons c rest ih =>
      simp only [findChunk, List.find?_cons, ih]
      by_cases h : c.id = id
      · have hb : (c.id == id) = true := by simp [h]
        simp [h, hb]
      · have hb : (c.id == id) = false := by simp [h]
        simp [h, hb]

/-- C6: opening a byte source from `Chunk(path, Some id)` scans the
container's chunks sequentially and returns a byte source scoped to the
first chunk whose identifier equals `id`; if no chunk matches it fails with
NotFound naming the id in hex; opening from `Chunk(path, None)` fails with
Unimplemented. -/
theorem c6_chunk_reader (fs : FileSys) (p : String) (id : Nat)
    (chunks : List Chunk) (hopen : fs.containers p = some chunks) :
    (∀ c, chunks.find? (fun c => c.id == id) = some c →
      Path.reader fs (.Chunk p (some id)) = .ok c.bytes) ∧
    (chunks.find? (fun c => c.id == id) = none →
      Path.reader fs (.Chunk p (some id)) =
        .error ⟨.notFound, "Chunk not found: " ++ hexUpper id⟩) ∧
    (∀ q, Path.reader fs (.Chunk q none) =
      .error ⟨.unimplemented,
        "Unsupported path type: " ++ Path.display (.Chunk q none)⟩) := by
  refine ⟨fun c hc => ?_, fun hc => ?_, fun q => rfl⟩
  · simp [Path.reader, hopen, findChunk_eq_find?, hc]
  · simp [Path.reader, hopen, findChunk_eq_find?, hc]

/-- Concrete filesystem for the C6 witness: one container with two chunks. -/
def demoFS : FileSys where
  raw := fun _ => none
  containers := fun q =>
    if q = "container.bin" then
      some [⟨1, [7]⟩, ⟨0xDEADBEEF, [1, 2, 3]⟩]
    else none

/-- Witness for C6: the matching chunk's bytes are returned, a missing id
fails with NotFound naming it in hex, and a chunkless container locator
fails with Unimplemented. -/
theorem c6_chunk_reader_witness :
    Path.reader demoFS (.Chunk "container.bin" (some 0xDEADBEEF)) =
      .ok [1, 2, 3] ∧
    Path.reader demoFS (.Chunk "container.bin" (some 0xBEEF)) =
      .error ⟨.notFound, "Chunk not found: " ++ hexUpper 0xBEEF⟩ ∧
    Path.reader demoFS (.Chunk "container.bin" none) =
      .error ⟨.unimplemented,
        "Unsupported path type: " ++
          Path.display (.Chunk "container.bin" none)⟩ := by
  refine ⟨?_, ?_, ?_⟩
  · exact (c6_chunk_reader demoFS "container.bin" 0xDEADBEEF _ rfl).1
      ⟨0xDEADBEEF, [1, 2, 3]⟩ (by decide)
  · exact (c6_chunk_reader demoFS "container.bin" 0xBEEF _ rfl).2.1 (by decide)
  · exact (c6_chunk_reader demoFS "container.bin" 0 _ rfl).2.2 "container.bin"

/-! ### The two-tier cache and loader (src/src/mgr.rs)

The loader is stateful: a process-wide `ASSET_CACHE` of weak `Arc`
references and a per-thread `THREAD_ASSET_CACHE` of weak `Rc` references.
It is embedded as an explicit step function on a `CacheState`.  Wrappers
(`Rc<Arc<dyn Any>>`) and assets (`Arc<dyn Any>`) are identified by
allocation numbers; their strong reference counts are tracked explicitly,
and a weak reference upgrade succeeds exactly when the strong count is
positive.  The claims under verification are single-threaded, so one
thread-local table is modelled. -/

/-- Static type identity of a `Format` implementation: the `TypeId` of the
format type itself and the `TypeId` and `type_name` of its `Output`. -/
structure FormatTy where
  tag : Nat
  outTag : Nat
  outName : String
deriving DecidableEq, Repr

/-- A format instance: its static type identity, its runtime configuration
(such as the `ImageFormat` value inside `Img`, invisible to `TypeId`), and
the outcome of its external `Format::parse` contract on each locator. -/
structure FormatInst where
  ty : FormatTy
  config : Nat
  parseOk : Path → Bool

/-- One write to the std `DefaultHasher`, modelled as a 64-bit polynomial
fold — a deterministic stand-in for SipHash; what is fed to the hasher
mirrors the source exactly. -/
def hashStep (h x : Nat) : Nat := (h * 1099511628211 + x + 1) % 2 ^ 64

/-- Feeds a string to the hasher (its bytes, then its length). -/
def hashString (h : Nat) (s : String) : Nat :=
  hashStep (s.data.foldl (fun a c => hashStep a c.toNat) h) s.length

/-- Feeds a `Path` to the hasher, as `#[derive(Hash)]` does: the variant
discriminant, then the fields (a 128-bit chunk id as two 64-bit halves). -/
def hashPath (h : Nat) : Path → Nat
  | .File p => hashString (hashStep h 0) p
  | .Chunk p none => hashStep (hashString (hashStep h 1) p) 0
  | .Chunk p (some id) =>
      hashStep (hashStep (hashStep (hashString (hashStep h 1) p) 1)
        (id % 2 ^ 64)) (id / 2 ^ 64)

/-- Cache key derivation (src/src/mgr.rs lines 40-44): hash the structured
path, then fold in the format's static type identity (`format.type_id()`,
not its runtime value), and finish to a 64-bit key. -/
def cacheKey (p : Path) (f : FormatInst) : Nat :=
  hashStep (hashPath 14695981039346656037 p) f.ty.tag

/-- A typed handle as `load` returns it (`Rc<Arc<F::Output>>`): the id of
the thread-local Rc wrapper and the id of the shared Arc asset it holds. -/
structure Handle where
  wrapper : Nat
  asset : Nat
deriving DecidableEq, Repr

/-- Pointwise update of an optional-valued map. -/
def updFn (f : Nat → Option Nat) (k v : Nat) : Nat → Option Nat :=
  fun x => if x = k then some v else f x

/-- Pointwise update of a counter map. -/
def setCnt (f : Nat → Nat) (k v : Nat) : Nat → Nat :=
  fun x => if x = k then v else f x

/-- The mutable state of the two-tier cache: the process-wide
`ASSET_CACHE` (weak Arc references by key), one thread's
`THREAD_ASSET_CACHE` (weak Rc references to wrappers by key), each
wrapper's target asset and strong Rc count, each asset's strong Arc count
and stored type id, the allocation counters, and a count of
`Format::parse` invocations. -/
structure CacheState where
  global : Nat → Option Nat
  thread : Nat → Option Nat
  wrapperTarget : Nat → Option Nat
  rc : Nat → Nat
  arc : Nat → Nat
  assetTag : Nat → Option Nat
  nextWrapper : Nat
  nextAsset : Nat
  parseCount : Nat

/-- The state at process start: both cache tiers empty, nothing allocated. -/
def initState : CacheState where
  global := fun _ => none
  thread := fun _ => none
  wrapperTarget := fun _ => none
  rc := fun _ => 0
  arc := fun _ => 0
  assetTag := fun _ => none
  nextWrapper := 0
  nextAsset := 0
  parseCount := 0

/-- Model of `insert_cache` (src/src/mgr.rs lines 113-120): box the parsed
value into a fresh strongly held Arc asset and install a weak reference to
it in the global cache, overwriting any previous entry under the key. -/
def insertCache (s : CacheState) (key tag : Nat) : Nat × CacheState :=
  (s.nextAsset,
    { s with
      global := updFn s.global key s.nextAsset
      assetTag := updFn s.assetTag s.nextAsset tag
      arc := setCnt s.arc s.nextAsset 1
      nextAsset := s.nextAsset + 1 })

/-- Model of `load_asset` followed by `insert_cache` on the miss path of
`load_cache`: invoke the format's external parse contract (counted), then
insert the result on success; a parse failure propagates. -/
def parseAndInsert (s : CacheState) (key : Nat) (p : Path) (f : FormatInst) :
    Except AssetError Nat × CacheState :=
  let s1 := { s with parseCount := s.parseCount + 1 }
  if f.parseOk p then
    let r := insertCache s1 key f.ty.outTag
    (.ok r.1, r.2)
  else (.error ⟨.unknown, "parsing asset failed"⟩, s1)

/-- Model of `load_cache` (src/src/mgr.rs lines 86-110): look the key up in
the global cache under the read lock; a live weak entry upgrades to a new
strong Arc reference; a stale or missing entry drops the read lock, parses
and re-inserts. -/
def loadCache (s : CacheState) (key : Nat) (p : Path) (f : FormatInst) :
    Except AssetError Nat × CacheState :=
  match s.global key with
  | some a =>
      if 0 < s.arc a then
        (.ok a, { s with arc := setCnt s.arc a (s.arc a + 1) })
      else parseAndInsert s key p f
  | none => parseAndInsert s key p f

/-- Wraps a freshly obtained strong Arc reference in a new thread-local Rc
wrapper and records a weak reference to it in the thread cache (the
`Rc::new` plus `insert(hash, Rc::downgrade(..))` steps of `load`). -/
def mkWrapper (s : CacheState) (key a : Nat) : Handle × CacheState :=
  (⟨s.nextWrapper, a⟩,
    { s with
      wrapperTarget := updFn s.wrapperTarget s.nextWrapper a
      rc := setCnt s.rc s.nextWrapper 1
      thread := updFn s.thread key s.nextWrapper
      nextWrapper := s.nextWrapper + 1 })

/-- The thread-cache consultation of `load` (src/src/mgr.rs lines 46-68),
returning the still type-erased handle: a live thread-local wrapper is
reused by cloning its Rc (no atomic traffic); a stale or missing entry
consults the global tier and re-wraps the result. -/
def loadErased (s : CacheState) (p : Path) (f : FormatInst) :
    Except AssetError Handle × CacheState :=
  let key := cacheKey p f
  match s.thread key with
  | some w =>
      if 0 < s.rc w then
        (.ok ⟨w, (s.wrapperTarget w).getD 0⟩,
          { s with rc := setCnt s.rc w (s.rc w + 1) })
      else
        match loadCache s key p f with
        | (.ok a, s1) => let r := mkWrapper s1 key a; (.ok r.1, r.2)
        | (.error e, s1) => (.error e, s1)
  | none =>
      match loadCache s key p f with
      | (.ok a, s1) => let r := mkWrapper s1 key a; (.ok r.1, r.2)
      | (.error e, s1) => (.error e, s1)

/-- Dropping one strong handle to a wrapper; when the last strong Rc goes,
the wrapper is destroyed and releases its strong Arc reference. -/
def dropHandle (s : CacheState) (h : Handle) : CacheState :=
  if s.rc h.wrapper = 0 then s
  else if s.rc h.wrapper = 1 then
    { s with
      rc := setCnt s.rc h.wrapper 0
      arc := setCnt s.arc ((s.wrapperTarget h.wrapper).getD 0)
        (s.arc ((s.wrapperTarget h.wrapper).getD 0) - 1) }
  else { s with rc := setCnt s.rc h.wrapper (s.rc h.wrapper - 1) }

/-- Model of `load` (src/src/mgr.rs lines 29-83): obtain a type-erased
handle through the two cache tiers, then verify the erased asset's recorded
type identity against the format's statically expected output type; a
mismatch fails with InvalidArgument naming the expected type (the transient
handle is dropped as the error returns). -/
def load (s : CacheState) (p : Path) (f : FormatInst) :
    Except AssetError Handle × CacheState :=
  match loadErased s p f with
  | (.ok h, s1) =>
      if s1.assetTag h.asset = some f.ty.outTag then (.ok h, s1)
      else
        (.error ⟨.invalidArgument,
          "Expected didn\x27t find asset of type: " ++ f.ty.outName⟩,
          dropHandle s1 h)
  | (.error e, s1) => (.error e, s1)

/-! ### Cache theorems -/

/-- A successful `load_cache` performs at most one parse. -/
theorem loadCache_parse_bound (s : CacheState) (key : Nat) (p : Path)
    (f : FormatInst) (a : Nat) (s1 : CacheState)
    (h : loadCache s key p f = (.ok a, s1)) :
    s1.parseCount ≤ s.parseCount + 1 := by
  simp only [loadCache, parseAndInsert, insertCache] at h
  split at h
  next b hg =>
    split at h
    next hl =>
      simp only [Prod.mk.injEq, Except.ok.injEq] at h
      obtain ⟨rfl, rfl⟩ := h
      exact Nat.le_succ _
    next hl =>
      split at h
      next hp =>
        simp only [Prod.mk.injEq, Except.ok.injEq] at h
        obtain ⟨rfl, rfl⟩ := h
        exact le_rfl
      next hp => simp at h
  next hg =>
    split at h
    next hp =>
      simp only [Prod.mk.injEq, Except.ok.injEq] at h
      obtain ⟨rfl, rfl⟩ := h
      exact le_rfl
    next hp => simp at h

/-- After a successful erased load, the thread tier records the returned
wrapper, the wrapper is strongly held and holds the returned asset, and at
most one parse happened. -/
theorem loadErased_ok_state (s : CacheState) (p : Path) (f : FormatInst)
    (h : Handle) (s1 : CacheState)
    (hld : loadErased s p f = (.ok h, s1)) :
    s1.thread (cacheKey p f) = some h.wrapper ∧
    0 < s1.rc h.wrapper ∧
    (s1.wrapperTarget h.wrapper).getD 0 = h.asset ∧
    s1.parseCount ≤ s.parseCount + 1 := by
  simp only [loadErased] at hld
  split at hld
  next w ht =>
    split at hld
    next hrc =>
      simp only [Prod.mk.injEq, Except.ok.injEq] at hld
      obtain ⟨rfl, rfl⟩ := hld
      exact ⟨ht, by simp [setCnt], rfl, Nat.le_succ _⟩
    next hrc =>
      split at hld
      next a s2 hlc =>
        simp only [mkWrapper, Prod.mk.injEq, Except.ok.injEq] at hld
        obtain ⟨rfl, rfl⟩ := hld
        exact ⟨by simp [updFn], by simp [setCnt], by simp [updFn],
          loadCache_parse_bound s _ p f a s2 hlc⟩
      next e s2 hlc => simp at hld
  next ht =>
    split at hld
    next a s2 hlc =>
      simp only [mkWrapper, Prod.mk.injEq, Except.ok.injEq] at hld
      obtain ⟨rfl, rfl⟩ := hld
      exact ⟨by simp [updFn], by simp [setCnt], by simp [updFn],
        loadCache_parse_bound s _ p f a s2 hlc⟩
    next e s2 hlc => simp at hld

/-- After a successful `load`, the thread tier records the returned
wrapper, which is strongly held and holds the returned asset, the asset's
stored type is the format's declared output type, and at most one parse
happened. -/
theorem load_ok_state (s : CacheState) (p : Path) (f : FormatInst)
    (h : Handle) (s1 : CacheState)
    (hld : load s p f = (.ok h, s1)) :
    s1.thread (cacheKey p f) = some h.wrapper ∧
    0 < s1.rc h.wrapper ∧
    (s1.wrapperTarget h.wrapper).getD 0 = h.asset ∧
    s1.assetTag h.asset = some f.ty.outTag ∧
    s1.parseCount ≤ s.parseCount + 1 := by
  simp only [load] at hld
  split at hld
  next h2 s2 hle =>
    split at hld
    next hc =>
      simp only [Prod.mk.injEq, Except.ok.injEq] at hld
      obtain ⟨rfl, rfl⟩ := hld
      obtain ⟨a1, a2, a3, a4⟩ := loadErased_ok_state s p f h2 s2 hle
      exact ⟨a1, a2, a3, hc, a4⟩
    next hc => simp at hld
  next e s2 hle => simp at hld

/-- C1: the type-recovery guard of `load` — when the type-erased asset
found in (or inserted into) the cache under the derived key records a
concrete type different from the format's declared `Output` type, `load`
returns an InvalidArgument error naming the expected type, and a
successful `load` only ever returns an asset whose recorded concrete type
equals the format's declared output type. -/
theorem c1_type_guard (s : CacheState) (p : Path) (f : FormatInst) :
    (∀ h s1, loadErased s p f = (.ok h, s1) →
      s1.assetTag h.asset ≠ some f.ty.outTag →
      load s p f = (.error ⟨.invalidArgument,
        "Expected didn\x27t find asset of type: " ++ f.ty.outName⟩,
        dropHandle s1 h)) ∧
    (∀ h s1, load s p f = (.ok h, s1) →
      s1.assetTag h.asset = some f.ty.outTag) := by
  constructor
  · intro h s1 hle hne
    simp only [load, hle]
    rw [if_neg hne]
  · intro h s1 hld
    exact (load_ok_state s p f h s1 hld).2.2.2.1

/-- A cache state holding, under every key, a live type-erased asset whose
stored type id differs from every demo format's output type (witnesses the
type-mismatch guard without searching for a 64-bit hash collision). -/
def mismatchState : CacheState where
  global := fun _ => some 0
  thread := fun _ => none
  wrapperTarget := fun _ => none
  rc := fun _ => 0
  arc := fun x => if x = 0 then 1 else 0
  assetTag := fun x => if x = 0 then some 999 else none
  nextWrapper := 1
  nextAsset := 1
  parseCount := 0

/-- A demo format instance: static type tag 5, output type tag 7. -/
def demoFmt : FormatInst where
  ty := { tag := 5, outTag := 7, outName := "DemoOut" }
  config := 0
  parseOk := fun _ => true

/-- Witness for C1: loading against a pre-cached entry of a different
concrete type fails with InvalidArgument naming the expected type. -/
theorem c1_type_guard_witness :
    load mismatchState (.File "a") demoFmt =
      (.error ⟨.invalidArgument,
        "Expected didn\x27t find asset of type: DemoOut"⟩,
        dropHandle (loadErased mismatchState (.File "a") demoFmt).2 ⟨1, 0⟩) :=
  (c1_type_guard mismatchState (.File "a") demoFmt).1 ⟨1, 0⟩
    (loadErased mismatchState (.File "a") demoFmt).2 (by rfl) (by decide)

/-- C2: a second sequential `load` of the same path and format, made while
the first load's handle is still held, returns a handle to the identical
underlying asset (indeed the identical thread-local wrapper), invokes no
parse at all, and the two calls together parse at most once. -/
theorem c2_cached_reload (s : CacheState) (p : Path) (f : FormatInst)
    (h1 : Handle) (s1 : CacheState)
    (hld : load s p f = (.ok h1, s1)) :
    ∃ s2, load s1 p f = (.ok h1, s2) ∧
      s2.parseCount = s1.parseCount ∧
      s1.parseCount ≤ s.parseCount + 1 := by
  obtain ⟨a1, a2, a3, a4, a5⟩ := load_ok_state s p f h1 s1 hld
  refine ⟨{ s1 with rc := setCnt s1.rc h1.wrapper (s1.rc h1.wrapper + 1) },
    ?_, rfl, a5⟩
  have hle2 : loadErased s1 p f =
      (.ok h1, { s1 with rc := setCnt s1.rc h1.wrapper (s1.rc h1.wrapper + 1) }) := by
    have heta : (⟨h1.wrapper, (s1.wrapperTarget h1.wrapper).getD 0⟩ : Handle) = h1 := by
      rw [a3]
    simp only [loadErased, a1]
    rw [if_pos a2, heta]
  simp only [load, hle2]
  rw [if_pos a4]

/-- Witness for C2: from the empty initial state, a first load of a demo
format caches the asset and a second load returns the same handle without
parsing. -/
theorem c2_cached_reload_witness :
    ∃ s2, load (load initState (.File "w") demoFmt).2 (.File "w") demoFmt =
        (.ok ⟨0, 0⟩, s2) ∧
      s2.parseCount = (load initState (.File "w") demoFmt).2.parseCount ∧
      (load initState (.File "w") demoFmt).2.parseCount ≤
        initState.parseCount + 1 :=
  c2_cached_reload initState (.File "w") demoFmt ⟨0, 0⟩
    (load initState (.File "w") demoFmt).2 (by rfl)

/-- C3: starting from the empty state, a first `load` parses once; after
its handle is fully dropped (so no strong reference exists anywhere), a
second `load` of the same key treats the stale weak references in both
tiers as misses, parses exactly once more, yields a fresh distinct asset,
and overwrites the stale global entry (and thread entry) with references
to the freshly parsed asset. -/
theorem c3_reload_after_drop (p : Path) (f : FormatInst)
    (hp : f.parseOk p = true) :
    ∃ h1 s1 h2 s2,
      load initState p f = (.ok h1, s1) ∧
      load (dropHandle s1 h1) p f = (.ok h2, s2) ∧
      h2.asset ≠ h1.asset ∧
      s1.parseCount = 1 ∧
      s2.parseCount = s1.parseCount + 1 ∧
      s2.global (cacheKey p f) = some h2.asset ∧
      s2.thread (cacheKey p f) = some h2.wrapper := by
  refine ⟨⟨0, 0⟩, (load initState p f).2, ⟨1, 1⟩,
    (load (dropHandle (load initState p f).2 ⟨0, 0⟩) p f).2,
    Prod.ext ?_ rfl, Prod.ext ?_ rfl, by simp, ?_, ?_, ?_, ?_⟩ <;>
    simp [load, loadErased, loadCache, parseAndInsert, insertCache,
      mkWrapper, dropHandle, initState, updFn, setCnt, hp]

/-- Witness for C3 at a concrete path and format. -/
theorem c3_reload_after_drop_witness :
    ∃ h1 s1 h2 s2,
      load initState (.File "w2") demoFmt = (.ok h1, s1) ∧
      load (dropHandle s1 h1) (.File "w2") demoFmt = (.ok h2, s2) ∧
      h2.asset ≠ h1.asset ∧
      s1.parseCount = 1 ∧
      s2.parseCount = s1.parseCount + 1 ∧
      s2.global (cacheKey (.File "w2") demoFmt) = some h2.asset ∧
      s2.thread (cacheKey (.File "w2") demoFmt) = some h2.wrapper :=
  c3_reload_after_drop (.File "w2") demoFmt rfl

/-- C7: the cache key is a pure, deterministic function of the locator's
identity fields and the format's static type identity only — formats of
the same static type but different configuration share the key, two
semantically equal locators parsed from different texts share the key, and
the key is a 64-bit value. -/
theorem c7_cache_key (p : Path) :
    (∀ f g : FormatInst, f.ty.tag = g.ty.tag → cacheKey p f = cacheKey p g) ∧
    (∀ t1 t2 l1 l2, Path.tryFrom t1 = .ok l1 → Path.tryFrom t2 = .ok l2 →
      l1 = l2 → ∀ f : FormatInst, cacheKey l1 f = cacheKey l2 f) ∧
    (∀ f : FormatInst, cacheKey p f < 2 ^ 64) := by
  refine ⟨fun f g hfg => ?_, fun t1 t2 l1 l2 _ _ hl f => by rw [hl],
    fun f => ?_⟩
  · unfold cacheKey
    rw [hfg]
  · unfold cacheKey hashStep
    exact Nat.mod_lt _ (by norm_num)

/-- A second demo format of the same static type as `demoFmt` but with a
different runtime configuration. -/
def demoFmt2 : FormatInst where
  ty := { tag := 5, outTag := 7, outName := "DemoOut" }
  config := 1
  parseOk := fun _ => false

/-- Witness for C7: differently configured instances of one format type
share the key, and the locators parsed from `"file:foo"` and `"foo"`
(textually different, semantically equal) share the key. -/
theorem c7_cache_key_witness :
    cacheKey (.File "foo") demoFmt = cacheKey (.File "foo") demoFmt2 ∧
    cacheKey (.File "foo") demoFmt = cacheKey (.File "foo") demoFmt ∧
    cacheKey (.File "foo") demoFmt < 2 ^ 64 :=
  ⟨(c7_cache_key (.File "foo")).1 demoFmt demoFmt2 rfl,
    (c7_cache_key (.File "foo")).2.1 "file:foo" "foo" (.File "foo")
      (.File "foo") (by rfl) (by rfl) rfl demoFmt,
    (c7_cache_key (.File "foo")).2.2 demoFmt⟩

/-! ### The Wavefront OBJ parser (src/src/formats/mesh/obj.rs)

The parser is line oriented; the byte source is taken as its list of
lines.  The numeric coordinate type is a parameter `α` with an external
parse function (the source uses `f32` via the std float parser; the claims
below use integer-valued coordinates, on which float parsing is exact, so
`α` is instantiated with `Int`).  A Rust panic (the unchecked indexing in
the trailing mesh loop, or `Vec::pop().unwrap()` on an empty vector) is a
distinct `fatal` outcome. -/

/-- A three-component point (the `mint::Point3` type). -/
structure Point3 (α : Type) where
  x : α
  y : α
  z : α
deriving DecidableEq, Repr

/-- A two-component point (the `mint::Point2` type). -/
structure Point2 (α : Type) where
  x : α
  y : α
deriving DecidableEq, Repr

/-- Modelled from the spec: a mesh holds vertex, normal and uv arrays (the
`formats::mesh` module declaring `Mesh` is not under src/; the fields are
exactly the ones obj.rs pushes into). -/
structure Mesh (α : Type) where
  verts : List (Point3 α) := []
  normals : List (Point3 α) := []
  uvs : List (Point2 α) := []
deriving DecidableEq, Repr

/-- Modelled from the spec: a scene is a list of named mesh nodes (the
`formats::mesh` module declaring `Scene` is not under src/). -/
structure Scene (α : Type) where
  nodes : List (Mesh α × String) := []
deriving DecidableEq, Repr

/-- Outcome of running a parser that can also panic: a value, an error
`Result`, or a Rust panic (`fatal`). -/
inductive ObjOutcome (β : Type) where
  | ok : β → ObjOutcome β
  | err : AssetError → ObjOutcome β
  | fatal : ObjOutcome β
deriving DecidableEq, Repr

/-- Digits-only numeral value. -/
def digitsVal? (ds : List Char) : Option Nat :=
  if ds.isEmpty ∨ ¬ ds.all Char.isDigit then none
  else some (ds.foldl (fun a c => a * 10 + (c.toNat - 48)) 0)

/-- Model of `str::parse::<usize>`: an optional leading plus sign, then
decimal digits; overflow past `2 ^ 64` is an error. -/
def parseUsize? (s : String) : Option Nat :=
  let ds := match s.data with
    | '+' :: r => r
    | r => r
  match digitsVal? ds with
  | some v => if v < 2 ^ 64 then some v else none
  | none => none

/-- Integer-valued model of `str::parse::<f32>` (exact on the integer
literals the verified inputs contain). -/
def parseNumInt (s : String) : Option Int :=
  match s.data with
  | '-' :: r => (digitsVal? r).map (fun v => -(v : Int))
  | '+' :: r => (digitsVal? r).map (fun v => (v : Int))
  | r => (digitsVal? r).map (fun v => (v : Int))

/-- Model of `str::split_whitespace`: maximal nonempty runs of
non-whitespace characters (ASCII whitespace). -/
def splitWsAux : List Char → List Char → List String
  | [], acc => if acc = [] then [] else [String.mk acc]
  | c :: rest, acc =>
      if c.isWhitespace then
        if acc = [] then splitWsAux rest []
        else String.mk acc :: splitWsAux rest []
      else splitWsAux rest (acc ++ [c])

/-- Whitespace-splits a line into its tokens. -/
def splitWhitespace (s : String) : List String := splitWsAux s.data []

/-- Model of `str::split('/')`: splits at every slash, keeping empty
pieces. -/
def splitSlashAux : List Char → List Char → List String
  | [], acc => [String.mk acc]
  | c :: rest, acc =>
      if c = '/' then String.mk acc :: splitSlashAux rest []
      else splitSlashAux rest (acc ++ [c])

/-- Slash-splits a face-index token. -/
def splitSlash (s : String) : List String := splitSlashAux s.data []

/-- Model of `idx - 1` on `usize` in release mode: wraps at zero. -/
def sub1w (v : Nat) : Nat := if v = 0 then 2 ^ 64 - 1 else v - 1

/-- The accumulating state of `ObjScene::parse` (obj.rs lines 32-37). -/
structure ObjPState (α : Type) where
  verts : List (Point3 α) := []
  normals : List (Point3 α) := []
  uvs : List (Point2 α) := []
  indices : List (Nat × Option Nat × Option Nat) := []
  scene : List (Mesh α × String) := []
  curObj : Option String := none

/-- The checked mesh-building loop run when an `o` line closes an object
(obj.rs lines 74-95): face indices are 1-based; an index past the parsed
arrays raises OutOfRange. -/
def buildMeshChecked {α : Type} (n : Nat) (verts normals : List (Point3 α))
    (uvs : List (Point2 α)) :
    List (Nat × Option Nat × Option Nat) → Mesh α →
      Except AssetError (Mesh α)
  | [], m => .ok m
  | (v, uv, norm) :: rest, m => do
      let vx ← match verts.get? (sub1w v) with
        | some x => Except.ok x
        | none =>
            Except.error ⟨.outOfRange,
              "on line " ++ toString n ++ " vertex index out of range"⟩
      let m1 := { m with verts := m.verts ++ [vx] }
      let m2 ← match norm with
        | none => Except.ok m1
        | some ni =>
            match normals.get? (sub1w ni) with
            | some x => Except.ok { m1 with normals := m1.normals ++ [x] }
            | none =>
                Except.error ⟨.outOfRange,
                  "on line " ++ toString n ++ " normal index out of range"⟩
      let m3 ← match uv with
        | none => Except.ok m2
        | some ui =>
            match uvs.get? (sub1w ui) with
            | some x => Except.ok { m2 with uvs := m2.uvs ++ [x] }
            | none =>
                Except.error ⟨.outOfRange,
                  "on line " ++ toString n ++ " uv index out of range"⟩
      buildMeshChecked n verts normals uvs rest m3

/-- The unchecked trailing mesh-building loop after the line scan (obj.rs
lines 158-167): direct slice indexing — `none` models the
index-out-of-bounds panic. -/
def buildMeshUnchecked {α : Type} (verts normals : List (Point3 α))
    (uvs : List (Point2 α)) :
    List (Nat × Option Nat × Option Nat) → Mesh α → Option (Mesh α)
  | [], m => some m
  | (v, uv, norm) :: rest, m => do
      let vx ← verts.get? (sub1w v)
      let m1 := { m with verts := m.verts ++ [vx] }
      let m2 ← match norm with
        | none => some m1
        | some ni =>
            (normals.get? (sub1w ni)).map
              (fun x => { m1 with normals := m1.normals ++ [x] })
      let m3 ← match uv with
        | none => some m2
        | some ui =>
            (uvs.get? (sub1w ui)).map
              (fun x => { m2 with uvs := m2.uvs ++ [x] })
      buildMeshUnchecked verts normals uvs rest m3

/-- One slash-separated face-index component after the source's
`map`/`transpose` dance: an empty component is `None`; a nonempty one
parses as `usize`, a failure carrying a wrapped error. -/
def parsePart (s : String) : Option (Except AssetError Nat) :=
  if s = "" then none
  else
    match parseUsize? s with
    | some v => some (.ok v)
    | none => some (.error ⟨.unknown, "parsing face index"⟩)

/-- Undoes `Result::transpose` the way the source consumes it. -/
def optTranspose : Option (Except AssetError Nat) →
    Except AssetError (Option Nat)
  | none => .ok none
  | some (.ok v) => .ok (some v)
  | some (.error e) => .error e

/-- Model of the `parse_index` closure (obj.rs lines 110-147): split the
token on slashes, parse each nonempty component, and build the
(vertex, uv, normal) triple; a leading empty component is a missing
geometry index; any other shape is an unrecognized index format (whose
message the source passes with literal, uninterpolated braces). -/
def parseFaceIndex (tok : String) :
    Except AssetError (Nat × Option Nat × Option Nat) :=
  match (splitSlash tok).map parsePart with
  | [some v] => do
      let v ← v
      pure (v, none, none)
  | [some v, uv] => do
      let v ← v
      let uv ← optTranspose uv
      pure (v, uv, none)
  | [some v, uv, norm] => do
      let v ← v
      let uv ← optTranspose uv
      let norm ← optTranspose norm
      pure (v, uv, norm)
  | none :: _ =>
      .error ⟨.invalidArgument,
        "Missing geometry index while parsing .obj file"⟩
  | _ =>
      .error ⟨.invalidArgument,
        "Unrecognized index format: \x27\x7bindex\x7d\x27"⟩

/-- Parses one numeric coordinate via the external parser `pn`, wrapping a
failure like `throw!` does. -/
def reqNum {α : Type} (pn : String → Option α) (s : String) :
    Except AssetError α :=
  match pn s with
  | some v => .ok v
  | none => .error ⟨.unknown, "parsing coord"⟩

/-- One line of `ObjScene::parse` (obj.rs lines 39-154): dispatch on the
whitespace-split tokens; comment lines and unrecognized commands (the
latter merely logged) are skipped; an `o` line closes any current object
into a named mesh with checked indexing and clears the accumulators. -/
def processLine {α : Type} (pn : String → Option α) (st : ObjPState α)
    (ln : Nat × String) : Except AssetError (ObjPState α) :=
  let n := ln.1 + 1
  match splitWhitespace ln.2 with
  | "#" :: _ => .ok st
  | ["v", x, y, z] => do
      let xv ← reqNum pn x
      let yv ← reqNum pn y
      let zv ← reqNum pn z
      .ok { st with verts := st.verts ++ [⟨xv, yv, zv⟩] }
  | ["vt", u, v] => do
      let uu ← reqNum pn u
      let vv ← reqNum pn v
      .ok { st with uvs := st.uvs ++ [⟨uu, vv⟩] }
  | ["vn", x, y, z] => do
      let xv ← reqNum pn x
      let yv ← reqNum pn y
      let zv ← reqNum pn z
      .ok { st with normals := st.normals ++ [⟨xv, yv, zv⟩] }
  | ["o", name] =>
      match st.curObj with
      | some prev => do
          let m ← buildMeshChecked n st.verts st.normals st.uvs st.indices {}
          .ok { verts := [], normals := [], uvs := [], indices := [],
                scene := st.scene ++ [(m, prev)], curObj := some name }
      | none => .ok { st with curObj := some name }
  | ["f", a, b, c] => do
      let ia ← parseFaceIndex a
      let ib ← parseFaceIndex b
      let ic ← parseFaceIndex c
      .ok { st with indices := st.indices ++ [ia, ib, ic] }
  | _ => .ok st

/-- Model of `ObjScene::parse` (src/src/formats/mesh/obj.rs lines 29-178):
fold the line handler over the numbered lines, then emit one final mesh
from any trailing geometry (with unchecked indexing — an out-of-bounds
index is a panic), named by the pending `o` name or `<anonymous>`. -/
def objSceneParse {α : Type} (pn : String → Option α)
    (lines : List String) : ObjOutcome (Scene α) :=
  match lines.enum.foldlM (processLine pn) {} with
  | .error e => .err e
  | .ok st =>
      match buildMeshUnchecked st.verts st.normals st.uvs st.indices {} with
      | none => .fatal
      | some m => .ok ⟨st.scene ++ [(m, st.curObj.getD "<anonymous>")]⟩

/-- Model of `ObjMesh::parse` (obj.rs lines 15-22): parse the scene and pop
its last node (`Vec::pop().unwrap()`, panicking when the scene is empty). -/
def objMeshParse {α : Type} (pn : String → Option α)
    (lines : List String) : ObjOutcome (Mesh α) :=
  match objSceneParse pn lines with
  | .ok sc =>
      match sc.nodes.getLast? with
      | some mn => .ok mn.1
      | none => .fatal
  | .err e => .err e
  | .fatal => .fatal

/-! ### OBJ theorems -/

/-- C8: parsing the five-line OBJ box sample succeeds and yields exactly
one mesh, named "box", with the three listed vertices, no normals and no
uvs. -/
theorem c8_obj_box :
    objSceneParse parseNumInt
        ["o box", "v 0 0 0", "v 1 0 0", "v 1 1 0", "f 1 2 3"] =
      .ok ⟨[(⟨[⟨0, 0, 0⟩, ⟨1, 0, 0⟩, ⟨1, 1, 0⟩], [], []⟩, "box")]⟩ := by
  rfl

/-- C9 (code bug): a face referencing vertex index 99 against only 3
parsed vertices makes the parser PANIC on the unchecked trailing-mesh
indexing when no later `o` line closes the object, instead of returning
the OutOfRange error the specification requires; the checked `o`-closing
path of the same parser does return OutOfRange, shown for contrast. -/
theorem c9_out_of_range_panic :
    objSceneParse parseNumInt
        ["v 0 0 0", "v 1 0 0", "v 1 1 0", "f 1 2 99"] = .fatal ∧
    objSceneParse parseNumInt
        ["o box", "v 0 0 0", "v 1 0 0", "v 1 1 0", "f 1 2 99", "o next"] =
      .err ⟨.outOfRange, "on line 6 vertex index out of range"⟩ :=
  ⟨rfl, rfl⟩

/-- C10: a successful scene parse always contains at least one node — the
final trailing mesh, named by the pending `o` name when one exists and
`<anonymous>` otherwise; on no input the result is exactly one empty
anonymous mesh; and the single-mesh `ObjMesh` format, which pops the last
node, never fails on an empty scene and returns that trailing mesh. -/
theorem c10_trailing_mesh (α : Type) (pn : String → Option α)
    (lines : List String) (s : Scene α)
    (h : objSceneParse pn lines = .ok s) :
    s.nodes ≠ [] ∧
    (∃ m name, s.nodes.getLast? = some (m, name) ∧
      objMeshParse pn lines = .ok m ∧
      ∀ st, lines.enum.foldlM (processLine pn) ({} : ObjPState α) =
          Except.ok st →
        name = st.curObj.getD "<anonymous>") ∧
    objSceneParse pn ([] : List String) =
      .ok ⟨[({ verts := [], normals := [], uvs := [] }, "<anonymous>")]⟩ := by
  have hempty : objSceneParse pn ([] : List String) =
      .ok ⟨[({ verts := [], normals := [], uvs := [] }, "<anonymous>")]⟩ := rfl
  simp only [objSceneParse] at h
  split at h
  next e hst => exact ObjOutcome.noConfusion h
  next st hst =>
    split at h
    next hbm => exact ObjOutcome.noConfusion h
    next m hbm =>
      simp only [ObjOutcome.ok.injEq] at h
      subst h
      refine ⟨by simp, ⟨m, st.curObj.getD "<anonymous>", ?_, ?_, ?_⟩, hempty⟩
      · simp [List.getLast?_concat]
      · simp only [objMeshParse, objSceneParse, hst, hbm]
        simp [List.getLast?_concat]
      · intro st2 hst2
        rw [hst] at hst2
        simp only [Except.ok.injEq] at hst2
        subst hst2
        rfl

/-- Witness for C10 at a two-line input: one vertex and a face that uses
it three times, emitted as the trailing anonymous mesh. -/
theorem c10_trailing_mesh_witness :
    (⟨[(⟨[⟨0, 0, 0⟩, ⟨0, 0, 0⟩, ⟨0, 0, 0⟩], [], []⟩,
        "<anonymous>")]⟩ : Scene Int).nodes ≠ [] ∧
    (∃ m name,
      (⟨[(⟨[⟨0, 0, 0⟩, ⟨0, 0, 0⟩, ⟨0, 0, 0⟩], [], []⟩,
        "<anonymous>")]⟩ : Scene Int).nodes.getLast? = some (m, name) ∧
      objMeshParse parseNumInt ["v 0 0 0", "f 1 1 1"] = .ok m ∧
      ∀ st, (["v 0 0 0", "f 1 1 1"] : List String).enum.foldlM
          (processLine parseNumInt) ({} : ObjPState Int) = Except.ok st →
        name = st.curObj.getD "<anonymous>") ∧
    objSceneParse parseNumInt ([] : List String) =
      .ok ⟨[({ verts := [], normals := [], uvs := [] }, "<anonymous>")]⟩ :=
  c10_trailing_mesh Int parseNumInt ["v 0 0 0", "f 1 1 1"]
    ⟨[(⟨[⟨0, 0, 0⟩, ⟨0, 0, 0⟩, ⟨0, 0, 0⟩], [], []⟩, "<anonymous>")]⟩
    (by rfl)

end Rivik
